import Mathlib

/-!
Verification of the adapter/device lifecycle manager of the gateway.

The definitions below are a shallow embedding of `src/adapter-manager.js`,
`src/adapters/zwave/zwave-adapter.js` and the Smart Plug consumer widget.
JavaScript objects keyed by strings become association lists (insertion
ordered, unique keys, overwrite-in-place on assignment, as JS objects are);
side effects (adapter method calls, emitted events, promise settlement)
become an explicit effect trace returned next to the new state.
-/

namespace Gateway

/-- A property value carried by a device property or a write request. -/
inductive Value where
  | bool (b : Bool)
  | num (n : Int)
  | str (s : String)
deriving DecidableEq, Repr

/-- The Thing view of a device, the payload of thing-added / thing-removed
events and of pairing-promise resolutions. -/
structure Thing where
  id : String
  name : String
deriving DecidableEq, Repr

/-- An adapter object. `ref` stands for JavaScript object identity (the
`!==` comparison in `handleDeviceAdded`); `ctorName` is
`adapter.constructor.name`, which `addAdapter` copies into `name`. -/
structure Adapter where
  ref : Nat
  id : String
  ctorName : String
  name : String
deriving DecidableEq, Repr

/-- A device object: id, display name, back-reference to its owning adapter,
and its property map. -/
structure Device where
  id : String
  name : String
  adapter : Adapter
  properties : List (String × Value)
deriving DecidableEq, Repr

/-- Assignment `obj[k] = v` on a JS object embedded as an association list:
replace in place if the key is present, append otherwise. -/
def setKey {κ α : Type} [DecidableEq κ] : List (κ × α) → κ → α → List (κ × α)
  | [], k, v => [(k, v)]
  | (k', v') :: rest, k, v =>
      if k' = k then (k, v) :: rest else (k', v') :: setKey rest k v

/-- Lookup `obj[k]` on a JS object embedded as an association list;
`none` is JavaScript `undefined`. -/
def getKey {κ α : Type} [DecidableEq κ] : List (κ × α) → κ → Option α
  | [], _ => none
  | (k', v') :: rest, k => if k' = k then some v' else getKey rest k

/-- Deletion `delete obj[k]` on a JS object embedded as an association list. -/
def delKey {κ α : Type} [DecidableEq κ] : List (κ × α) → κ → List (κ × α)
  | [], _ => []
  | (k', v') :: rest, k =>
      if k' = k then delKey rest k else (k', v') :: delKey rest k

/-- Modelled from the spec: `device.js` is not under `src/`. Per the spec a
Thing is the uniform representation of a Device, carrying the fully-formed
entity; we model `device.getThing()` as the Thing view of the device. -/
def Device.getThing (d : Device) : Thing := ⟨d.id, d.name⟩

/-- Modelled from the spec: `device.js` is not under `src/`. Per the spec
`getProperty` retrieves the last-known value of the named property from the
device's property map. -/
def Device.getProperty (d : Device) (propName : String) : Option Value :=
  getKey d.properties propName

/-- One observable side effect of an AdapterManager operation, in the order
the JavaScript performs them: adapter method calls, emitted events, and
settlement of a pairing deferred (identified by its creation number). -/
inductive Effect where
  | startPairing (a : Adapter)
  | cancelPairing (a : Adapter)
  | startUnpairing (a : Adapter)
  | cancelUnpairing (a : Adapter)
  | emitAdapterAdded (a : Adapter)
  | emitThingAdded (t : Thing)
  | emitThingRemoved (t : Thing)
  | resolve (session : Nat) (t : Thing)
  | reject (session : Nat) (reason : String)
  | devSetProperty (deviceId : String) (propName : String) (v : Value)
deriving DecidableEq, Repr

/-- The mutable state of the AdapterManager singleton: the two registries,
the two pairing deferreds (holding the creation number of the `Deferred`
they reference), and a counter handing out creation numbers to model
`new Deferred()`. -/
structure ManagerState where
  adapters : List (String × Adapter)
  devices : List (String × Device)
  deferredAdd : Option Nat
  deferredRemove : Option Nat
  nextDeferred : Nat
deriving DecidableEq, Repr

/-- The freshly constructed AdapterManager. -/
def initState : ManagerState := ⟨[], [], none, none, 0⟩

/-- JS `addAdapter(adapter)`: sets `adapter.name` from the constructor name,
stores the adapter under its id, and emits adapter-added. -/
def addAdapter (m : ManagerState) (a : Adapter) : ManagerState × List Effect :=
  let a' := { a with name := a.ctorName }
  ({ m with adapters := setKey m.adapters a'.id a' },
   [Effect.emitAdapterAdded a'])

/-- JS `addNewThing()`: always allocates a fresh deferred; rejects it at once
when an add or remove is already in progress, otherwise installs it as
`deferredAdd` and calls `startPairing()` on every adapter. Returns the new
state, the effect trace, and the deferred handed back to the caller. -/
def addNewThing (m : ManagerState) : ManagerState × List Effect × Nat :=
  let d := m.nextDeferred
  let m0 := { m with nextDeferred := d + 1 }
  match m.deferredAdd with
  | some _ => (m0, [Effect.reject d "Add already in progress"], d)
  | none =>
    match m.deferredRemove with
    | some _ => (m0, [Effect.reject d "Remove already in progress"], d)
    | none =>
      ({ m0 with deferredAdd := some d },
       m.adapters.map (fun p => Effect.startPairing p.2), d)

/-- JS `removeSomeThing()`: symmetric to `addNewThing`, with
`startUnpairing()` fanned out and `deferredRemove` installed. -/
def removeSomeThing (m : ManagerState) : ManagerState × List Effect × Nat :=
  let d := m.nextDeferred
  let m0 := { m with nextDeferred := d + 1 }
  match m.deferredAdd with
  | some _ => (m0, [Effect.reject d "Add already in progress"], d)
  | none =>
    match m.deferredRemove with
    | some _ => (m0, [Effect.reject d "Remove already in progress"], d)
    | none =>
      ({ m0 with deferredRemove := some d },
       m.adapters.map (fun p => Effect.startUnpairing p.2), d)

/-- JS `cancelAddNewThing()`: when an add deferred exists, sends
`cancelPairing()` to every adapter, clears the deferred and rejects it;
otherwise does nothing. -/
def cancelAddNewThing (m : ManagerState) : ManagerState × List Effect :=
  match m.deferredAdd with
  | none => (m, [])
  | some d =>
    ({ m with deferredAdd := none },
     m.adapters.map (fun p => Effect.cancelPairing p.2) ++
       [Effect.reject d "addNewThing cancelled"])

/-- JS `cancelRemoveSomeThing()`: symmetric to `cancelAddNewThing`. -/
def cancelRemoveSomeThing (m : ManagerState) : ManagerState × List Effect :=
  match m.deferredRemove with
  | none => (m, [])
  | some d =>
    ({ m with deferredRemove := none },
     m.adapters.map (fun p => Effect.cancelUnpairing p.2) ++
       [Effect.reject d "removeSomeThing cancelled"])

/-- JS `getAdapter(id)`. -/
def getAdapter (m : ManagerState) (id : String) : Option Adapter :=
  getKey m.adapters id

/-- JS `getDevice(id)`. -/
def getDevice (m : ManagerState) (id : String) : Option Device :=
  getKey m.devices id

/-- JS `getThing(thingId)`: returns `device.getThing()` when the device is
registered, `undefined` otherwise. -/
def getThing (m : ManagerState) (thingId : String) : Option Thing :=
  (getDevice m thingId).map Device.getThing

/-- JS `getProperty(thingId, propertyName)`: proxies to the device when it is
registered, returns `undefined` otherwise. -/
def getProperty (m : ManagerState) (thingId propName : String) : Option Value :=
  match getDevice m thingId with
  | some dev => dev.getProperty propName
  | none => none

/-- JS `setProperty(thingId, propertyName, value)`: fire-and-forget proxy to
`device.setProperty` when the device is registered; a silent no-op
otherwise. The registry itself is never touched. -/
def setProperty (m : ManagerState) (thingId propName : String) (v : Value) :
    ManagerState × List Effect :=
  match getDevice m thingId with
  | some _ => (m, [Effect.devSetProperty thingId propName v])
  | none => (m, [])

/-- JS `handleDeviceAdded(device)`: stores the device, emits thing-added, and
when an add deferred is pending clears it, sends `cancelPairing()` to every
adapter other than the reporting one, and resolves the deferred with the
thing. -/
def handleDeviceAdded (m : ManagerState) (dev : Device) :
    ManagerState × List Effect :=
  let m1 := { m with devices := setKey m.devices dev.id dev }
  let thing := dev.getThing
  match m.deferredAdd with
  | none => (m1, [Effect.emitThingAdded thing])
  | some s =>
    ({ m1 with deferredAdd := none },
     Effect.emitThingAdded thing ::
       m.adapters.filterMap (fun p =>
         if p.2 = dev.adapter then none else some (Effect.cancelPairing p.2)) ++
       [Effect.resolve s thing])

/-- JS `handleDeviceRemoved(device)`: deletes the device, emits thing-removed,
and when a remove deferred is pending clears it, sends `cancelUnpairing()`
to every adapter other than the reporting one, and resolves the deferred
with the thing. -/
def handleDeviceRemoved (m : ManagerState) (dev : Device) :
    ManagerState × List Effect :=
  let m1 := { m with devices := delKey m.devices dev.id }
  let thing := dev.getThing
  match m.deferredRemove with
  | none => (m1, [Effect.emitThingRemoved thing])
  | some s =>
    ({ m1 with deferredRemove := none },
     Effect.emitThingRemoved thing ::
       m.adapters.filterMap (fun p =>
         if p.2 = dev.adapter then none else some (Effect.cancelUnpairing p.2)) ++
       [Effect.resolve s thing])

/-- One externally triggered call on the AdapterManager. -/
inductive Action where
  | addThing
  | removeThing
  | cancelAdd
  | cancelRemove
  | deviceAdded (d : Device)
  | deviceRemoved (d : Device)
  | adapterAdded (a : Adapter)
deriving Repr

/-- Dispatch one action to the corresponding AdapterManager method. -/
def step (m : ManagerState) : Action → ManagerState × List Effect
  | .addThing => ((addNewThing m).1, (addNewThing m).2.1)
  | .removeThing => ((removeSomeThing m).1, (removeSomeThing m).2.1)
  | .cancelAdd => cancelAddNewThing m
  | .cancelRemove => cancelRemoveSomeThing m
  | .deviceAdded d => handleDeviceAdded m d
  | .deviceRemoved d => handleDeviceRemoved m d
  | .adapterAdded a => addAdapter m a

/-- Run a sequence of calls from a state, keeping only the final state. -/
def run (m : ManagerState) : List Action → ManagerState
  | [] => m
  | a :: rest => run (step m a).1 rest

/-!
Consumer side: the Smart Plug widget (`SmartPlug.turnOn` / `turnOff` and
its show helpers).
-/

/-- The on/off CSS class state of the Smart Plug element: class "on",
class "off", or neither of the two (the transition state). -/
inductive UiState where
  | isOn
  | isOff
  | transition
deriving DecidableEq, Repr

/-- The consumer-side state of the Smart Plug widget: the cached property
values (`none` models the cleared / null cache while a write is in flight
and JS undefined before the first status arrives) plus the rendered
element state. -/
structure PlugState where
  propOn : Option Bool
  propPower : Option Int
  ui : UiState
  powerLabel : String
deriving DecidableEq, Repr

/-- An observable effect of the Smart Plug widget: the HTTP PUT it issues
and the console errors it logs. -/
inductive PlugEffect where
  | fetchPut (propName : String) (v : Bool)
  | logError (msg : String)
deriving DecidableEq, Repr

/-- JS truthiness of a cached numeric property: undefined and 0 are falsy. -/
def truthyNum : Option Int → Bool
  | none => false
  | some n => n != 0

/-- JS string conversion used when building the power label. -/
def numLabel : Option Int → String
  | none => "undefined"
  | some n => toString n

/-- JS `SmartPlug.showPower(power)`: writes power + "W" into the label when
the cached power is truthy, "0W" otherwise. -/
def showPower (p : PlugState) (power : Option Int) : PlugState :=
  if truthyNum p.propPower then { p with powerLabel := numLabel power ++ "W" }
  else { p with powerLabel := "0W" }

/-- JS `SmartPlug.showOn()`: class list becomes "on", label from showPower. -/
def showOn (p : PlugState) : PlugState :=
  showPower { p with ui := UiState.isOn } p.propPower

/-- JS `SmartPlug.showOff()`: class list becomes "off", label "OFF". -/
def showOff (p : PlugState) : PlugState :=
  { p with ui := UiState.isOff, powerLabel := "OFF" }

/-- JS `SmartPlug.showTransition()`: both classes removed. -/
def showTransition (p : PlugState) : PlugState :=
  { p with ui := UiState.transition }

/-- The synchronous part of `SmartPlug.turnOn`: show the transition state
and clear the cached value, then issue the PUT of on=true. -/
def turnOnStart (p : PlugState) : PlugState × PlugEffect :=
  ({ showTransition p with propOn := none }, PlugEffect.fetchPut "on" true)

/-- The response handler of `SmartPlug.turnOn`: on status 200 show the on
state and cache the confirmed value; on any other status only log the
failure. -/
def turnOnResponse (p : PlugState) (status : Nat) : PlugState × List PlugEffect :=
  if status == 200 then
    ({ showOn p with propOn := some true }, [])
  else
    (p, [PlugEffect.logError
          ("Status " ++ toString status ++ " trying to turn on plug")])

/-- The synchronous part of `SmartPlug.turnOff`: show the transition state
and clear the cached value, then issue the PUT of on=false. -/
def turnOffStart (p : PlugState) : PlugState × PlugEffect :=
  ({ showTransition p with propOn := none }, PlugEffect.fetchPut "on" false)

/-- The response handler of `SmartPlug.turnOff`: on status 200 show the off
state and cache the confirmed value; on any other status only log the
failure. -/
def turnOffResponse (p : PlugState) (status : Nat) : PlugState × List PlugEffect :=
  if status == 200 then
    ({ showOff p with propOn := some false }, [])
  else
    (p, [PlugEffect.logError
          ("Status " ++ toString status ++ " trying to turn off switch")])

/-!
The ZWave adapter: driver lifecycle (id finalization and registration) and
its own `handleDeviceAdded` filter for the controller node.
-/

/-- The identity-relevant state of a ZWaveAdapter object: its id (the
provisional "???" from the constructor until the driver is ready) and
whether the serial connection is open. -/
structure ZWaveAdapterSt where
  id : String
  connected : Bool
deriving DecidableEq, Repr

/-- The ZWave adapter together with the manager registry keys it registers
into (the key set of `adapterManager.adapters`). -/
structure ZWaveSystem where
  adapter : ZWaveAdapterSt
  registryIds : List String
deriving DecidableEq, Repr

/-- The state right after `new ZWaveAdapter(manager, port)`: provisional
id "???", connected, not registered anywhere. -/
def initZWave : ZWaveSystem := ⟨⟨"???", true⟩, []⟩

/-- Driver lifecycle notifications delivered by openzwave. -/
inductive ZWEvent where
  | driverReady (homeId : Nat)
  | driverFailed
deriving DecidableEq, Repr

/-- JS `homeId.toString(16)`. -/
def hexString (n : Nat) : String := ⟨Nat.toDigits 16 n⟩

/-- One driver notification. `driverReady` finalizes the id as
"zwave-" + homeId in hex and only then calls `manager.addAdapter(this)`
(storing the id in the registry key set); `driverFailed` only disconnects
the serial port and logs. -/
def zwStep (s : ZWaveSystem) : ZWEvent → ZWaveSystem
  | .driverReady homeId =>
      let newId := "zwave-" ++ hexString homeId
      { adapter := { s.adapter with id := newId },
        registryIds :=
          if newId ∈ s.registryIds then s.registryIds
          else s.registryIds ++ [newId] }
  | .driverFailed => { s with adapter := { s.adapter with connected := false } }

/-- Run a sequence of driver notifications from a state. -/
def zwRun (s : ZWaveSystem) : List ZWEvent → ZWaveSystem
  | [] => s
  | e :: rest => zwRun (zwStep s e) rest

/-- Modelled from the spec: `zwave-node.js` is not under `src/`. A node
carries its Z-Wave node id (node 1 is the controller), exposed both
directly as `node.nodeId` and through its `zwInfo` record, and a display
name. -/
structure ZWaveNode where
  nodeId : Nat
  name : String
deriving DecidableEq, Repr

/-- What `ZWaveAdapter.handleDeviceAdded` may do besides updating
`nodesBeingAdded`: run the classifier on the node, and forward it to the
AdapterManager (`super.handleDeviceAdded`), which would register it and
emit thing-added. -/
inductive ZWAddEffect where
  | classify (n : ZWaveNode)
  | forwardAdd (n : ZWaveNode)
deriving DecidableEq, Repr

/-- JS `ZWaveAdapter.handleDeviceAdded(node)`: always deletes the node from
`nodesBeingAdded`; only for nodeId > 1 classifies the node and forwards it
to the AdapterManager. -/
def zwHandleDeviceAdded (nodesBeingAdded : List (Nat × ZWaveNode))
    (node : ZWaveNode) : List (Nat × ZWaveNode) × List ZWAddEffect :=
  let nba := delKey nodesBeingAdded node.nodeId
  if node.nodeId > 1 then
    (nba, [ZWAddEffect.classify node, ZWAddEffect.forwardAdd node])
  else
    (nba, [])

/-!
Specification-side predicates and concrete fixtures used by the theorems.
-/

/-- A rejection reason the spec files under `OperationInProgressError`:
the human-readable reasons the coordinator uses when a pairing or
unpairing request arrives while another one is active. -/
def OperationInProgressReason (r : String) : Prop :=
  r = "Add already in progress" ∨ r = "Remove already in progress"

/-- Busy-rejection behaviour of the coordinator in a state `m`: both
`addNewThing` and `removeSomeThing` leave the registries and both sessions
untouched, settle the freshly returned deferred with a single immediate
in-progress rejection, and invoke no start call on any adapter. -/
def busyRejects (m : ManagerState) : Prop :=
  ((addNewThing m).1.adapters = m.adapters ∧
   (addNewThing m).1.devices = m.devices ∧
   (addNewThing m).1.deferredAdd = m.deferredAdd ∧
   (addNewThing m).1.deferredRemove = m.deferredRemove ∧
   (∃ r, OperationInProgressReason r ∧
     (addNewThing m).2.1 = [Effect.reject (addNewThing m).2.2 r]) ∧
   (∀ a : Adapter, Effect.startPairing a ∉ (addNewThing m).2.1 ∧
     Effect.startUnpairing a ∉ (addNewThing m).2.1)) ∧
  ((removeSomeThing m).1.adapters = m.adapters ∧
   (removeSomeThing m).1.devices = m.devices ∧
   (removeSomeThing m).1.deferredAdd = m.deferredAdd ∧
   (removeSomeThing m).1.deferredRemove = m.deferredRemove ∧
   (∃ r, OperationInProgressReason r ∧
     (removeSomeThing m).2.1 = [Effect.reject (removeSomeThing m).2.2 r]) ∧
   (∀ a : Adapter, Effect.startPairing a ∉ (removeSomeThing m).2.1 ∧
     Effect.startUnpairing a ∉ (removeSomeThing m).2.1))

/-- Mutual exclusion of the two pairing sessions. -/
def Mutex (m : ManagerState) : Prop :=
  m.deferredAdd = none ∨ m.deferredRemove = none

/-- Boolean matcher for a resolve effect settling session `s`. -/
def isResolveOf (s : Nat) : Effect → Bool
  | .resolve s' _ => s' == s
  | _ => false

/-- Boolean matcher for any effect settling session `s` (resolve or
reject). -/
def isSettleOf (s : Nat) : Effect → Bool
  | .resolve s' _ => s' == s
  | .reject s' _ => s' == s
  | _ => false

/-- Concrete fixture: a ZWave-style adapter. -/
def adapterX : Adapter := ⟨7, "zwave-1a2b", "ZWaveAdapter", "ZWaveAdapter"⟩

/-- Concrete fixture: a second adapter. -/
def adapterY : Adapter := ⟨8, "zigbee-1", "ZigbeeAdapter", "ZigbeeAdapter"⟩

/-- Concrete fixture: a device owned by `adapterX`. -/
def deviceX : Device :=
  ⟨"zwave-1a2b-3", "Lamp", adapterX, [("on", Value.bool false)]⟩

/-- Concrete fixture: a device owned by `adapterY`. -/
def deviceY : Device :=
  ⟨"zigbee-1-5", "Plug", adapterY, [("on", Value.bool true)]⟩

/-- Concrete fixture: the two demo adapters keyed by id. -/
def demoAdapters : List (String × Adapter) :=
  [("zwave-1a2b", adapterX), ("zigbee-1", adapterY)]

/-- Concrete fixture: two adapters, one device, no active session. -/
def demoState : ManagerState :=
  ⟨demoAdapters, [("zwave-1a2b-3", deviceX)], none, none, 4⟩

/-- Concrete fixture: two adapters with an add session pending. -/
def busyAddState : ManagerState := ⟨demoAdapters, [], some 4, none, 5⟩

/-- Concrete fixture: two adapters, one device, a remove session pending. -/
def busyRemoveState : ManagerState :=
  ⟨demoAdapters, [("zwave-1a2b-3", deviceX)], none, some 4, 5⟩

/-- Concrete fixture: first adapter registered under "adapter-a". -/
def dupAdapterOld : Adapter := ⟨0, "adapter-a", "MockAdapterA", ""⟩

/-- Concrete fixture: a different adapter reusing the id "adapter-a". -/
def dupAdapterNew : Adapter := ⟨1, "adapter-a", "MockAdapterB", ""⟩

/-- Concrete fixture: the manager after registering `dupAdapterOld`. -/
def dupState : ManagerState := (addAdapter initState dupAdapterOld).1

/-- Concrete fixture: the plug widget confirmed off before the user acts. -/
def plugOff : PlugState := ⟨some false, some 0, UiState.isOff, "OFF"⟩

/-- Concrete fixture: the Z-Wave controller node (node id 1). -/
def controllerNode : ZWaveNode := ⟨1, "Controller"⟩

/-!
General lemmas about the association-list embedding of JS objects.
-/

theorem getKey_setKey_self {κ α : Type} [DecidableEq κ] (l : List (κ × α))
    (k : κ) (v : α) : getKey (setKey l k v) k = some v := by
  induction l with
  | nil => simp [setKey, getKey]
  | cons p rest ih =>
    obtain ⟨k', v'⟩ := p
    by_cases h : k' = k
    · simp [setKey, getKey, h]
    · simp [setKey, getKey, h, ih]

theorem getKey_delKey_self {κ α : Type} [DecidableEq κ] (l : List (κ × α))
    (k : κ) : getKey (delKey l k) k = none := by
  induction l with
  | nil => simp [delKey, getKey]
  | cons p rest ih =>
    obtain ⟨k', v'⟩ := p
    by_cases h : k' = k
    · simpa [delKey, h] using ih
    · simp [delKey, getKey, h, ih]

theorem getLast?_cons_append_singleton {α : Type} (a : α) (l : List α)
    (b : α) : (a :: (l ++ [b])).getLast? = some b := by
  have h : a :: (l ++ [b]) = (a :: l) ++ [b] := by simp
  rw [h]
  exact List.getLast?_concat _

theorem getKey_eq_none_of_absent {κ α : Type} [DecidableEq κ]
    (l : List (κ × α)) (k : κ) (h : ∀ p ∈ l, p.1 ≠ k) : getKey l k = none := by
  induction l with
  | nil => rfl
  | cons p rest ih =>
    obtain ⟨k', v'⟩ := p
    have hk : k' ≠ k := h (k', v') (by simp)
    simp only [getKey, if_neg hk]
    exact ih fun q hq => h q (by simp [hq])

/-!
Theorems for the claims, in claim order.
-/

/-- C3 counterexample: with `dupAdapterOld` already registered under
"adapter-a", `addAdapter` of a second adapter with the same id does not
fail: it emits adapter-added anyway and replaces the existing
registration, so the registration is not left unchanged. -/
theorem addAdapter_duplicate_not_rejected :
    getAdapter dupState "adapter-a" =
      some { dupAdapterOld with name := dupAdapterOld.ctorName } ∧
    (addAdapter dupState dupAdapterNew).2 =
      [Effect.emitAdapterAdded { dupAdapterNew with name := dupAdapterNew.ctorName }] ∧
    getAdapter (addAdapter dupState dupAdapterNew).1 "adapter-a" =
      some { dupAdapterNew with name := dupAdapterNew.ctorName } ∧
    ({ dupAdapterNew with name := dupAdapterNew.ctorName } : Adapter) ≠
      { dupAdapterOld with name := dupAdapterOld.ctorName } := by
  refine ⟨rfl, rfl, rfl, by decide⟩

/-- C3 (amended): `addAdapter` never checks for a duplicate id: for every
state it registers the adapter under its id (overwriting any existing
registration with that id, without any error) and publishes a single
adapter-added event carrying the adapter; the rest of the state is
untouched. -/
theorem addAdapter_always_registers (m : ManagerState) (a : Adapter) :
    getAdapter (addAdapter m a).1 a.id = some { a with name := a.ctorName } ∧
    (addAdapter m a).2 =
      [Effect.emitAdapterAdded { a with name := a.ctorName }] ∧
    (addAdapter m a).1.devices = m.devices ∧
    (addAdapter m a).1.deferredAdd = m.deferredAdd ∧
    (addAdapter m a).1.deferredRemove = m.deferredRemove := by
  refine ⟨?_, rfl, rfl, rfl, rfl⟩
  simpa [addAdapter, getAdapter] using
    getKey_setKey_self m.adapters a.id { a with name := a.ctorName }

/-- C8: every lookup addressed to an id absent from the registry returns
the not-found signal (and, the embedding being total, never throws):
`getAdapter` yields none when no adapter entry carries the id, and for a
device id absent from the device registry `getDevice`, `getThing` and
`getProperty` yield none while `setProperty` is a silent no-op that leaves
the whole manager state unchanged. -/
theorem absent_lookups (m : ManagerState) (id propName : String) (v : Value) :
    ((∀ p ∈ m.adapters, p.1 ≠ id) → getAdapter m id = none) ∧
    ((∀ p ∈ m.devices, p.1 ≠ id) →
      getDevice m id = none ∧ getThing m id = none ∧
      getProperty m id propName = none ∧
      setProperty m id propName v = (m, [])) := by
  constructor
  · intro h
    exact getKey_eq_none_of_absent m.adapters id h
  · intro h
    have hd : getDevice m id = none := getKey_eq_none_of_absent m.devices id h
    exact ⟨hd, by simp [getThing, hd], by simp [getProperty, hd],
      by simp [setProperty, hd]⟩

/-- C8 witness: the absent id "missing" on the demo state. -/
theorem absent_lookups_witness :
    getAdapter demoState "missing" = none ∧
    (getDevice demoState "missing" = none ∧
     getThing demoState "missing" = none ∧
     getProperty demoState "missing" "on" = none ∧
     setProperty demoState "missing" "on" (Value.bool true) = (demoState, [])) :=
  ⟨(absent_lookups demoState "missing" "on" (Value.bool true)).1 (by decide),
   (absent_lookups demoState "missing" "on" (Value.bool true)).2 (by decide)⟩

/-- C6: cancelling with no corresponding session active is a perfect
no-op (no error, no adapter call, state untouched); cancelling an active
session sends the cancel call to every registered adapter, clears the
session slot (leaving everything else untouched), and rejects the pending
deferred. -/
theorem cancel_semantics (m : ManagerState) :
    (m.deferredAdd = none → cancelAddNewThing m = (m, [])) ∧
    (m.deferredRemove = none → cancelRemoveSomeThing m = (m, [])) ∧
    (∀ s, m.deferredAdd = some s →
      (cancelAddNewThing m).1.deferredAdd = none ∧
      (cancelAddNewThing m).1.adapters = m.adapters ∧
      (cancelAddNewThing m).1.devices = m.devices ∧
      (cancelAddNewThing m).1.deferredRemove = m.deferredRemove ∧
      (∀ p ∈ m.adapters, Effect.cancelPairing p.2 ∈ (cancelAddNewThing m).2) ∧
      Effect.reject s "addNewThing cancelled" ∈ (cancelAddNewThing m).2) ∧
    (∀ s, m.deferredRemove = some s →
      (cancelRemoveSomeThing m).1.deferredRemove = none ∧
      (cancelRemoveSomeThing m).1.adapters = m.adapters ∧
      (cancelRemoveSomeThing m).1.devices = m.devices ∧
      (cancelRemoveSomeThing m).1.deferredAdd = m.deferredAdd ∧
      (∀ p ∈ m.adapters,
        Effect.cancelUnpairing p.2 ∈ (cancelRemoveSomeThing m).2) ∧
      Effect.reject s "removeSomeThing cancelled" ∈
        (cancelRemoveSomeThing m).2) := by
  refine ⟨?_, ?_, ?_, ?_⟩
  · intro h
    simp [cancelAddNewThing, h]
  · intro h
    simp [cancelRemoveSomeThing, h]
  · intro s hs
    refine ⟨by simp [cancelAddNewThing, hs], by simp [cancelAddNewThing, hs],
      by simp [cancelAddNewThing, hs], by simp [cancelAddNewThing, hs], ?_, ?_⟩
    · intro p hp
      simp only [cancelAddNewThing, hs, List.mem_append, List.mem_map]
      exact Or.inl ⟨p, hp, rfl⟩
    · simp [cancelAddNewThing, hs]
  · intro s hs
    refine ⟨by simp [cancelRemoveSomeThing, hs],
      by simp [cancelRemoveSomeThing, hs], by simp [cancelRemoveSomeThing, hs],
      by simp [cancelRemoveSomeThing, hs], ?_, ?_⟩
    · intro p hp
      simp only [cancelRemoveSomeThing, hs, List.mem_append, List.mem_map]
      exact Or.inl ⟨p, hp, rfl⟩
    · simp [cancelRemoveSomeThing, hs]

/-- C6 witness: the no-session no-op on the demo state and the fan-out on
the two busy states. -/
theorem cancel_semantics_witness :
    cancelAddNewThing demoState = (demoState, []) ∧
    cancelRemoveSomeThing demoState = (demoState, []) ∧
    ((cancelAddNewThing busyAddState).1.deferredAdd = none ∧
     Effect.cancelPairing adapterY ∈ (cancelAddNewThing busyAddState).2 ∧
     Effect.reject 4 "addNewThing cancelled" ∈
       (cancelAddNewThing busyAddState).2) ∧
    ((cancelRemoveSomeThing busyRemoveState).1.deferredRemove = none ∧
     Effect.cancelUnpairing adapterX ∈ (cancelRemoveSomeThing busyRemoveState).2 ∧
     Effect.reject 4 "removeSomeThing cancelled" ∈
       (cancelRemoveSomeThing busyRemoveState).2) := by
  have hAdd := (cancel_semantics busyAddState).2.2.1 4 rfl
  have hRem := (cancel_semantics busyRemoveState).2.2.2 4 rfl
  refine ⟨(cancel_semantics demoState).1 rfl,
    (cancel_semantics demoState).2.1 rfl,
    ⟨hAdd.1, ?_, hAdd.2.2.2.2.2⟩, ⟨hRem.1, ?_, hRem.2.2.2.2.2⟩⟩
  · exact hAdd.2.2.2.2.1 ("zigbee-1", adapterY) (by decide)
  · exact hRem.2.2.2.2.1 ("zwave-1a2b", adapterX) (by decide)

/-- Every single AdapterManager call preserves mutual exclusion of the two
pairing sessions. -/
theorem mutex_step_preserved (m : ManagerState) (a : Action) (h : Mutex m) :
    Mutex (step m a).1 := by
  rcases hA : m.deferredAdd with _ | dA <;>
    rcases hR : m.deferredRemove with _ | dR <;>
    cases a <;>
    simp_all [Mutex, step, addNewThing, removeSomeThing, cancelAddNewThing,
      cancelRemoveSomeThing, handleDeviceAdded, handleDeviceRemoved,
      addAdapter]

/-- Runs from a mutually-exclusive state stay mutually exclusive. -/
theorem mutex_run (acts : List Action) (m : ManagerState) (h : Mutex m) :
    Mutex (run m acts) := by
  induction acts generalizing m with
  | nil => simpa [run] using h
  | cons a rest ih =>
    simp only [run]
    exact ih _ (mutex_step_preserved m a h)

/-- In any state with an active session, both pairing requests reject
immediately with an in-progress reason, touch nothing, and start no
pairing on any adapter. -/
theorem busyRejects_of_busy (m : ManagerState)
    (h : m.deferredAdd.isSome ∨ m.deferredRemove.isSome) : busyRejects m := by
  rcases hA : m.deferredAdd with _ | dA
  · rcases hR : m.deferredRemove with _ | dR
    · rw [hA, hR] at h
      simp at h
    · constructor
      · refine ⟨?_, ?_, ?_, ?_,
          ⟨"Remove already in progress", Or.inr rfl, ?_⟩, ?_⟩ <;>
          simp [addNewThing, hA, hR]
      · refine ⟨?_, ?_, ?_, ?_,
          ⟨"Remove already in progress", Or.inr rfl, ?_⟩, ?_⟩ <;>
          simp [removeSomeThing, hA, hR]
  · constructor
    · refine ⟨?_, ?_, ?_, ?_,
        ⟨"Add already in progress", Or.inl rfl, ?_⟩, ?_⟩ <;>
        simp [addNewThing, hA]
    · refine ⟨?_, ?_, ?_, ?_,
        ⟨"Add already in progress", Or.inl rfl, ?_⟩, ?_⟩ <;>
        simp [removeSomeThing, hA]

/-- C1: along every sequence of AdapterManager calls at most one pairing
session (deferredAdd or deferredRemove) is active at any instant, and in
any state with an active session both `addNewThing` and `removeSomeThing`
return a freshly rejected promise whose reason is one of the in-progress
reasons, invoke no startPairing/startUnpairing on any adapter, and leave
the registries and the active session untouched. -/
theorem pairing_mutual_exclusion :
    (∀ acts : List Action, Mutex (run initState acts)) ∧
    (∀ m : ManagerState,
      m.deferredAdd.isSome ∨ m.deferredRemove.isSome → busyRejects m) :=
  ⟨fun acts => mutex_run acts initState (Or.inl rfl), busyRejects_of_busy⟩

/-- C1 witness: a run that opens an add session, and the busy rejection on
the concrete busy state. -/
theorem pairing_mutual_exclusion_witness :
    Mutex (run initState [Action.addThing]) ∧ busyRejects busyAddState :=
  ⟨pairing_mutual_exclusion.1 [Action.addThing],
   pairing_mutual_exclusion.2 busyAddState (Or.inl (by decide))⟩

/-- C2: `handleDeviceAdded` registers the device (so `getDevice` finds
it), publishes thing-added as the very first effect, and when an add
session is active it clears the session, sends cancelPairing to every
registered adapter other than the reporting device's adapter, and
resolves the pending deferred with the thing as the very last effect —
so the thing-added event precedes the resolution. -/
theorem handleDeviceAdded_spec (m : ManagerState) (dev : Device) :
    getDevice (handleDeviceAdded m dev).1 dev.id = some dev ∧
    (handleDeviceAdded m dev).2.head? =
      some (Effect.emitThingAdded dev.getThing) ∧
    (∀ s, m.deferredAdd = some s →
      (handleDeviceAdded m dev).1.deferredAdd = none ∧
      (handleDeviceAdded m dev).2.getLast? =
        some (Effect.resolve s dev.getThing) ∧
      (∀ p ∈ m.adapters, p.2 ≠ dev.adapter →
        Effect.cancelPairing p.2 ∈ (handleDeviceAdded m dev).2)) := by
  refine ⟨?_, ?_, ?_⟩
  · rcases hs : m.deferredAdd with _ | s <;>
      simpa [handleDeviceAdded, hs, getDevice] using
        getKey_setKey_self m.devices dev.id dev
  · rcases hs : m.deferredAdd with _ | s <;> simp [handleDeviceAdded, hs]
  · intro s hs
    refine ⟨by simp [handleDeviceAdded, hs], ?_, ?_⟩
    · simp only [handleDeviceAdded, hs]
      exact getLast?_cons_append_singleton _ _ _
    · intro p hp hpa
      have hmem : Effect.cancelPairing p.2 ∈
          m.adapters.filterMap (fun q =>
            if q.2 = dev.adapter then none
            else some (Effect.cancelPairing q.2)) :=
        List.mem_filterMap.2 ⟨p, hp, by simp [hpa]⟩
      simp only [handleDeviceAdded, hs]
      exact List.mem_cons_of_mem _ (List.mem_append_left _ hmem)

/-- C2 witness: the device reported by `adapterX` during the pending add
session of the busy state. -/
theorem handleDeviceAdded_spec_witness :
    getDevice (handleDeviceAdded busyAddState deviceX).1 deviceX.id =
      some deviceX ∧
    (handleDeviceAdded busyAddState deviceX).2.head? =
      some (Effect.emitThingAdded deviceX.getThing) ∧
    (handleDeviceAdded busyAddState deviceX).1.deferredAdd = none ∧
    (handleDeviceAdded busyAddState deviceX).2.getLast? =
      some (Effect.resolve 4 deviceX.getThing) ∧
    Effect.cancelPairing adapterY ∈ (handleDeviceAdded busyAddState deviceX).2 := by
  have h := handleDeviceAdded_spec busyAddState deviceX
  have h3 := h.2.2 4 rfl
  exact ⟨h.1, h.2.1, h3.1, h3.2.1,
    h3.2.2 ("zigbee-1", adapterY) (by decide) (by decide)⟩

/-- C4: after `handleDeviceRemoved` the device id is gone from the
registry (`getDevice` yields the not-found signal), the thing-removed
event is the first effect performed during the call (so it is published
before the call returns), and when a remove session is active it is
cleared, resolved with the removed thing as the last effect, and
cancelUnpairing is sent to every other registered adapter. -/
theorem handleDeviceRemoved_spec (m : ManagerState) (dev : Device) :
    getDevice (handleDeviceRemoved m dev).1 dev.id = none ∧
    (handleDeviceRemoved m dev).2.head? =
      some (Effect.emitThingRemoved dev.getThing) ∧
    (∀ s, m.deferredRemove = some s →
      (handleDeviceRemoved m dev).1.deferredRemove = none ∧
      (handleDeviceRemoved m dev).2.getLast? =
        some (Effect.resolve s dev.getThing) ∧
      (∀ p ∈ m.adapters, p.2 ≠ dev.adapter →
        Effect.cancelUnpairing p.2 ∈ (handleDeviceRemoved m dev).2)) := by
  refine ⟨?_, ?_, ?_⟩
  · rcases hs : m.deferredRemove with _ | s <;>
      simpa [handleDeviceRemoved, hs, getDevice] using
        getKey_delKey_self m.devices dev.id
  · rcases hs : m.deferredRemove with _ | s <;> simp [handleDeviceRemoved, hs]
  · intro s hs
    refine ⟨by simp [handleDeviceRemoved, hs], ?_, ?_⟩
    · simp only [handleDeviceRemoved, hs]
      exact getLast?_cons_append_singleton _ _ _
    · intro p hp hpa
      have hmem : Effect.cancelUnpairing p.2 ∈
          m.adapters.filterMap (fun q =>
            if q.2 = dev.adapter then none
            else some (Effect.cancelUnpairing q.2)) :=
        List.mem_filterMap.2 ⟨p, hp, by simp [hpa]⟩
      simp only [handleDeviceRemoved, hs]
      exact List.mem_cons_of_mem _ (List.mem_append_left _ hmem)

/-- C4 witness: removing `deviceX` during the pending remove session. -/
theorem handleDeviceRemoved_spec_witness :
    getDevice (handleDeviceRemoved busyRemoveState deviceX).1 deviceX.id =
      none ∧
    (handleDeviceRemoved busyRemoveState deviceX).2.head? =
      some (Effect.emitThingRemoved deviceX.getThing) ∧
    (handleDeviceRemoved busyRemoveState deviceX).1.deferredRemove = none ∧
    (handleDeviceRemoved busyRemoveState deviceX).2.getLast? =
      some (Effect.resolve 4 deviceX.getThing) ∧
    Effect.cancelUnpairing adapterY ∈
      (handleDeviceRemoved busyRemoveState deviceX).2 := by
  have h := handleDeviceRemoved_spec busyRemoveState deviceX
  have h3 := h.2.2 4 rfl
  exact ⟨h.1, h.2.1, h3.1, h3.2.1,
    h3.2.2 ("zigbee-1", adapterY) (by decide) (by decide)⟩

/-- With no add session pending, `handleDeviceAdded` only emits the
thing-added event. -/
theorem handleDeviceAdded_effects_of_none (m : ManagerState) (dev : Device)
    (h : m.deferredAdd = none) :
    (handleDeviceAdded m dev).2 = [Effect.emitThingAdded dev.getThing] := by
  simp [handleDeviceAdded, h]

/-- C5: with an add session `s` pending, a first `handleDeviceAdded`
produces precisely one resolution of `s`, the second call (for any second
device) settles `s` neither by resolve nor by reject, and every adapter
other than the first device's adapter receives cancelPairing in the first
call. -/
theorem resolution_exclusivity (m : ManagerState) (d1 d2 : Device) (s : Nat)
    (hs : m.deferredAdd = some s) (_hne : d1 ≠ d2) :
    (handleDeviceAdded m d1).2.countP (fun e => isResolveOf s e) = 1 ∧
    (handleDeviceAdded (handleDeviceAdded m d1).1 d2).2.countP
      (fun e => isSettleOf s e) = 0 ∧
    (∀ p ∈ m.adapters, p.2 ≠ d1.adapter →
      Effect.cancelPairing p.2 ∈ (handleDeviceAdded m d1).2) := by
  have hcancels : ∀ e ∈ m.adapters.filterMap (fun q =>
      if q.2 = d1.adapter then none else some (Effect.cancelPairing q.2)),
      ¬ (isResolveOf s e = true) := by
    intro e he
    rcases List.mem_filterMap.1 he with ⟨q, _, hqe⟩
    by_cases hc : q.2 = d1.adapter
    · simp [hc] at hqe
    · simp only [if_neg hc, Option.some.injEq] at hqe
      rw [← hqe]
      simp [isResolveOf]
  have hafter : (handleDeviceAdded m d1).1.deferredAdd = none := by
    simp [handleDeviceAdded, hs]
  refine ⟨?_, ?_, ?_⟩
  · simp only [handleDeviceAdded, hs]
    rw [List.countP_append, List.countP_cons]
    rw [List.countP_eq_zero.2 hcancels]
    simp [isResolveOf]
  · rw [handleDeviceAdded_effects_of_none _ _ hafter]
    simp [isSettleOf]
  · intro p hp hpa
    have hmem : Effect.cancelPairing p.2 ∈
        m.adapters.filterMap (fun q =>
          if q.2 = d1.adapter then none
          else some (Effect.cancelPairing q.2)) :=
      List.mem_filterMap.2 ⟨p, hp, by simp [hpa]⟩
    simp only [handleDeviceAdded, hs]
    exact List.mem_cons_of_mem _ (List.mem_append_left _ hmem)

/-- C5 witness: the two demo devices reported in sequence against the
pending session 4 of the busy state. -/
theorem resolution_exclusivity_witness :
    (handleDeviceAdded busyAddState deviceX).2.countP
      (fun e => isResolveOf 4 e) = 1 ∧
    (handleDeviceAdded (handleDeviceAdded busyAddState deviceX).1
      deviceY).2.countP (fun e => isSettleOf 4 e) = 0 ∧
    Effect.cancelPairing adapterY ∈ (handleDeviceAdded busyAddState deviceX).2 := by
  have h := resolution_exclusivity busyAddState deviceX deviceY 4 rfl (by decide)
  exact ⟨h.1, h.2.1, h.2.2 ("zigbee-1", adapterY) (by decide) (by decide)⟩

/-- C7 counterexample: start from the plug confirmed off, click turn-on
(the cache is cleared and the transition state shown), then receive a 500
response: the property stays in the in-flight state (cache still cleared,
transition still shown) instead of reverting to the last confirmed value
false; the failure is only logged. -/
theorem turnOn_failure_no_revert :
    (turnOnResponse (turnOnStart plugOff).1 500).1.propOn = none ∧
    (turnOnResponse (turnOnStart plugOff).1 500).1.propOn ≠ some false ∧
    (turnOnResponse (turnOnStart plugOff).1 500).1.ui = UiState.transition ∧
    (turnOnResponse (turnOnStart plugOff).1 500).2 =
      [PlugEffect.logError "Status 500 trying to turn on plug"] := by
  refine ⟨rfl, by decide, rfl, ?_⟩
  decide

/-- C7 (amended): on a user write the property enters the in-flight state
(cached value cleared, transition shown) before the PUT is issued, and the
confirmed state is set only once a 200 response arrives; on a non-success
response the failure is surfaced as a logged console error while the
widget state is left exactly as it was (still in flight) — it is not
reverted to the last confirmed value. -/
theorem plug_write_flow (p : PlugState) (status : Nat) (h : status ≠ 200) :
    (turnOnStart p).1.propOn = none ∧
    (turnOnStart p).1.ui = UiState.transition ∧
    (turnOnStart p).2 = PlugEffect.fetchPut "on" true ∧
    (turnOffStart p).1.propOn = none ∧
    (turnOffStart p).1.ui = UiState.transition ∧
    (turnOffStart p).2 = PlugEffect.fetchPut "on" false ∧
    (turnOnResponse p 200).1.propOn = some true ∧
    (turnOnResponse p 200).1.ui = UiState.isOn ∧
    (turnOffResponse p 200).1.propOn = some false ∧
    (turnOffResponse p 200).1.ui = UiState.isOff ∧
    (turnOnResponse p status).1 = p ∧
    (turnOnResponse p status).2 =
      [PlugEffect.logError
        ("Status " ++ toString status ++ " trying to turn on plug")] ∧
    (turnOffResponse p status).1 = p ∧
    (turnOffResponse p status).2 =
      [PlugEffect.logError
        ("Status " ++ toString status ++ " trying to turn off switch")] := by
  have hb : (status == 200) = false := by simpa using h
  refine ⟨rfl, rfl, rfl, rfl, rfl, rfl, ?_, ?_, ?_, ?_, ?_, ?_, ?_, ?_⟩
  · simp [turnOnResponse]
  · simp only [turnOnResponse, beq_self_eq_true, if_true, showOn, showPower]
    split <;> rfl
  · simp [turnOffResponse]
  · simp [turnOffResponse, showOff]
  · simp [turnOnResponse, hb]
  · simp [turnOnResponse, hb]
  · simp [turnOffResponse, hb]
  · simp [turnOffResponse, hb]

/-- C7 witness for the amended claim: the whole flow at the confirmed-off
plug with a 500 failure response. -/
theorem plug_write_flow_witness :
    (turnOnStart plugOff).1.propOn = none ∧
    (turnOnStart plugOff).1.ui = UiState.transition ∧
    (turnOnStart plugOff).2 = PlugEffect.fetchPut "on" true ∧
    (turnOffStart plugOff).1.propOn = none ∧
    (turnOffStart plugOff).1.ui = UiState.transition ∧
    (turnOffStart plugOff).2 = PlugEffect.fetchPut "on" false ∧
    (turnOnResponse plugOff 200).1.propOn = some true ∧
    (turnOnResponse plugOff 200).1.ui = UiState.isOn ∧
    (turnOffResponse plugOff 200).1.propOn = some false ∧
    (turnOffResponse plugOff 200).1.ui = UiState.isOff ∧
    (turnOnResponse plugOff 500).1 = plugOff ∧
    (turnOnResponse plugOff 500).2 =
      [PlugEffect.logError
        ("Status " ++ toString (500 : Nat) ++ " trying to turn on plug")] ∧
    (turnOffResponse plugOff 500).1 = plugOff ∧
    (turnOffResponse plugOff 500).2 =
      [PlugEffect.logError
        ("Status " ++ toString (500 : Nat) ++ " trying to turn off switch")] :=
  plug_write_flow plugOff 500 (by decide)

/-- With driver-produced registry ids only, every id a run of driver
notifications can register is of the finalized "zwave-" ++ hex form. -/
theorem zwRegistry_ids (evts : List ZWEvent) (s : ZWaveSystem)
    (h : ∀ id ∈ s.registryIds, ∃ n, id = "zwave-" ++ hexString n) :
    ∀ id ∈ (zwRun s evts).registryIds, ∃ n, id = "zwave-" ++ hexString n := by
  induction evts generalizing s with
  | nil => simpa [zwRun] using h
  | cons e rest ih =>
    simp only [zwRun]
    refine ih _ ?_
    cases e with
    | driverReady homeId =>
      intro id hid
      simp only [zwStep] at hid
      by_cases hmem : ("zwave-" ++ hexString homeId) ∈ s.registryIds
      · rw [if_pos hmem] at hid
        exact h id hid
      · rw [if_neg hmem] at hid
        rcases List.mem_append.1 hid with hid | hid
        · exact h id hid
        · rw [List.mem_singleton.1 hid]
          exact ⟨homeId, rfl⟩
    | driverFailed =>
      intro id hid
      simp only [zwStep] at hid
      exact h id hid

/-- C9: along every sequence of driver notifications, every id ever
present in the registry is a finalized "zwave-" + homeId-in-hex id — never
the provisional "???" — and the driver-failed path registers nothing: it
leaves the registry and the adapter id untouched and only closes the
serial connection. -/
theorem zwave_no_provisional_registration (evts : List ZWEvent) :
    (∀ id ∈ (zwRun initZWave evts).registryIds,
      id ≠ "???" ∧ ∃ n, id = "zwave-" ++ hexString n) ∧
    (∀ s : ZWaveSystem,
      (zwStep s ZWEvent.driverFailed).registryIds = s.registryIds ∧
      (zwStep s ZWEvent.driverFailed).adapter.id = s.adapter.id ∧
      (zwStep s ZWEvent.driverFailed).adapter.connected = false) := by
  constructor
  · intro id hid
    have hform := zwRegistry_ids evts initZWave (by simp [initZWave]) id hid
    refine ⟨?_, hform⟩
    rcases hform with ⟨n, hn⟩
    subst hn
    intro hc
    have h1 := congrArg String.length hc
    rw [String.length_append] at h1
    have h2 : "zwave-".length = 6 := by decide
    have h3 : "???".length = 3 := by decide
    omega
  · intro s
    exact ⟨rfl, rfl, rfl⟩

/-- C9 witness: the driver becoming ready with homeId 26 registers the
finalized id "zwave-1a" and nothing provisional. -/
theorem zwave_no_provisional_registration_witness :
    ("zwave-" ++ hexString 26) ≠ "???" ∧
    ∃ n, ("zwave-" ++ hexString 26) = "zwave-" ++ hexString n :=
  (zwave_no_provisional_registration [ZWEvent.driverReady 26]).1
    ("zwave-" ++ hexString 26) (by decide)

/-- C10: for a node with nodeId at most 1 (the Z-Wave controller),
`ZWaveAdapter.handleDeviceAdded` removes the node from the
nodes-being-added map but produces no effect at all: the node is neither
classified nor forwarded to the AdapterManager, so no thing-added can fire
for it and it never becomes visible as a Thing. -/
theorem zwave_controller_filtered (nba : List (Nat × ZWaveNode))
    (node : ZWaveNode) (h : node.nodeId ≤ 1) :
    getKey (zwHandleDeviceAdded nba node).1 node.nodeId = none ∧
    (zwHandleDeviceAdded nba node).2 = [] := by
  have hgt : ¬ node.nodeId > 1 := by omega
  constructor
  · simp only [zwHandleDeviceAdded, if_neg hgt]
    exact getKey_delKey_self nba node.nodeId
  · simp [zwHandleDeviceAdded, hgt]

/-- C10 witness: the controller node (node id 1) while it is listed among
the nodes being added. -/
theorem zwave_controller_filtered_witness :
    getKey (zwHandleDeviceAdded [(1, controllerNode)] controllerNode).1
      controllerNode.nodeId = none ∧
    (zwHandleDeviceAdded [(1, controllerNode)] controllerNode).2 = [] :=
  zwave_controller_filtered [(1, controllerNode)] controllerNode (by decide)

end Gateway
